import Mathlib

/-!
Shallow embedding of the serial-protocol decoder of `MiniRadio4.py`
(class `RadioController`, plus the telemetry-line acceptance used by
`RadioApp.process_serial_queue`).

Strings are modelled as `List Char`, byte streams as `List Nat`
(one `Nat` per byte, values `0..255`), wall-clock time as `ℚ` (seconds),
the `data_queue` as a `List Event` (oldest first) and the characters
written to the serial port as a `List Char` (oldest first; the code
always writes one command character followed by a newline).
-/

/-! ### Basic text helpers (Python `str` operations restricted to the
character set actually produced by the decoders below) -/

/-- Whitespace characters stripped by Python's `str.strip()` (ASCII part). -/
def isPySpace (c : Char) : Bool :=
  c = ' ' || c = '\t' || c = '\n' || c = '\r' || c = Char.ofNat 11 || c = Char.ofNat 12

/-- Python `str.strip()`: remove leading and trailing whitespace. -/
def pyStrip (l : List Char) : List Char :=
  ((l.dropWhile isPySpace).reverse.dropWhile isPySpace).reverse

/-- Python `str.upper()` (ASCII letters). -/
def toUpperL (l : List Char) : List Char := l.map Char.toUpper

/-- Does `pat` occur at the head of `txt`? -/
def leadMatch : List Char → List Char → Bool
  | [], _ => true
  | _ :: _, [] => false
  | p :: ps, t :: ts => p = t && leadMatch ps ts

/-- Python's substring test `pat in txt`. -/
def containsSub (pat : List Char) : List Char → Bool
  | [] => leadMatch pat []
  | t :: ts => leadMatch pat (t :: ts) || containsSub pat ts

/-- Python `str.split(sep)` on a single separator character:
always yields at least one (possibly empty) field. -/
def splitOnChar (sep : Char) : List Char → List (List Char)
  | [] => [[]]
  | c :: cs =>
    match splitOnChar sep cs with
    | [] => [[c]]
    | f :: rest => if c = sep then [] :: f :: rest else (c :: f) :: rest

/-! ### The three regular expressions of `RadioController`, translated
to executable matchers -/

/-- `RadioController._is_hex_string`: `bool(s) and all(c in
"0123456789abcdefABCDEF" for c in s)`. -/
def isHexStr (l : List Char) : Bool :=
  !l.isEmpty && l.all (fun c => c.isDigit || ('a' ≤ c && c ≤ 'f') || ('A' ≤ c && c ≤ 'F'))

/-- One repetition group of `DATA_LOG_PATTERN`: `(?:,\s*[^,]*\s*){n}`
followed by `$`.  After a `,`, the sub-pattern `\s*[^,]*\s*` consumes
every character up to the next comma (or the end), so matching `n`
groups then the anchor is this deterministic scan. -/
def commaGroups : Nat → List Char → Bool
  | 0, r => r.isEmpty
  | _ + 1, [] => false
  | n + 1, c :: r1 => c == ',' && commaGroups n (r1.dropWhile (fun x => x != ','))

/-- `RadioController.DATA_LOG_PATTERN = re.compile(r"^\s*\d+\s*(?:,\s*[^,]*\s*){14}$")`,
used via `.match` (anchored at the start; `$` anchors the end since the
matched lines carry no trailing newline). -/
def dataLogMatch (l : List Char) : Bool :=
  let l1 := l.dropWhile isPySpace
  let ds := l1.takeWhile Char.isDigit
  let l2 := (l1.dropWhile Char.isDigit).dropWhile isPySpace
  !ds.isEmpty && commaGroups 14 l2

/-- A comma-free field matching `\s*\d+\s*` exactly (used to state the
"leading integer field" characterisation of `dataLogMatch`). -/
def fieldWsDigits (f : List Char) : Bool :=
  let f1 := f.dropWhile isPySpace
  let ds := f1.takeWhile Char.isDigit
  let f2 := (f1.dropWhile Char.isDigit).dropWhile isPySpace
  !ds.isEmpty && f2.isEmpty

/-- `RadioController.MEMORY_SLOT_PATTERN =
re.compile(r"^#?\s*(\d{1,2})\s*,\s*([^,]*?)\s*,\s*(\d+)\s*,\s*([^,]*?)\s*$")`,
used via `_is_memory_slot_line` which matches against `line.strip()`.
Acceptance is equivalent to: after an optional leading `#`, the string
splits on `,` into exactly 4 fields whose first is a whitespace-padded
run of 1-2 digits and whose third is a whitespace-padded run of 1+
digits (the second and fourth fields are arbitrary comma-free text). -/
def memSlotMatch (line : List Char) : Bool :=
  let t := pyStrip line
  let t2 := match t with
    | '#' :: rest => rest
    | _ => t
  let fs := splitOnChar ',' t2
  fs.length = 4 &&
    (let d := pyStrip (fs.headD []); !d.isEmpty && d.length ≤ 2 && d.all Char.isDigit) &&
    (let d := pyStrip ((fs.drop 2).headD []); !d.isEmpty && d.all Char.isDigit)

/-- One or more `x` + four-hex-digit tokens: `(?:x[0-9a-fA-F]{4})+`
(the nonempty requirement is checked at the call site). -/
def themeTokens : List Char → Bool
  | [] => true
  | 'x' :: a :: b :: c :: d :: rest =>
    (a.isDigit || ('a' ≤ a && a ≤ 'f') || ('A' ≤ a && a ≤ 'F')) &&
    (b.isDigit || ('a' ≤ b && b ≤ 'f') || ('A' ≤ b && b ≤ 'F')) &&
    (c.isDigit || ('a' ≤ c && c ≤ 'f') || ('A' ≤ c && c ≤ 'F')) &&
    (d.isDigit || ('a' ≤ d && d ≤ 'f') || ('A' ≤ d && d ≤ 'F')) &&
    themeTokens rest
  | _ => false

/-- Everything after the first occurrence of `c`, or `none` when `c`
does not occur (models `[^:]*:` — the label cannot cross a colon, so
the colon consumed is necessarily the first one). -/
def afterFirst (c : Char) : List Char → Option (List Char)
  | [] => none
  | x :: xs => if x = c then some xs else afterFirst c xs

/-- `RadioController.THEME_STRING_LINE_PATTERN =
re.compile(r"^Color theme [^:]*:\s*((?:x[0-9a-fA-F]{4})+)$")` used via
`.match`; returns the captured group 1 on success. -/
def themeMatch (line : List Char) : Option (List Char) :=
  if leadMatch "Color theme ".toList line then
    match afterFirst ':' (line.drop 12) with
    | none => none
    | some rest =>
      let grp := rest.dropWhile isPySpace
      if !grp.isEmpty && themeTokens grp then some grp else none
  else none

/-! ### Byte-to-text decoding (`bytes.decode('ascii')` and the
`bytes.decode('utf-8')` fallback) -/

/-- Python `bytes.decode('ascii')`: succeeds iff every byte is `< 0x80`. -/
def decodeAsciiBytes (bs : List Nat) : Option (List Char) :=
  if bs.all (fun b => b ≤ 0x7F) then some (bs.map Char.ofNat) else none

/-- A UTF-8 continuation byte. -/
def utf8Cont (b : Nat) : Bool := 0x80 ≤ b && b ≤ 0xBF

/-- Strict UTF-8 decoding with fuel (the fuel is instantiated with the
byte-list length, which bounds the number of decoded characters). -/
def decodeUtf8Aux : Nat → List Nat → Option (List Char)
  | _, [] => some []
  | 0, _ :: _ => none
  | fuel + 1, b :: bs =>
    if b ≤ 0x7F then
      (decodeUtf8Aux fuel bs).map (fun cs => Char.ofNat b :: cs)
    else if 0xC2 ≤ b && b ≤ 0xDF then
      match bs with
      | b1 :: bs2 =>
        if utf8Cont b1 then
          (decodeUtf8Aux fuel bs2).map
            (fun cs => Char.ofNat ((b - 0xC0) * 0x40 + (b1 - 0x80)) :: cs)
        else none
      | [] => none
    else if 0xE0 ≤ b && b ≤ 0xEF then
      match bs with
      | b1 :: b2 :: bs3 =>
        let okB1 :=
          if b = 0xE0 then 0xA0 ≤ b1 && b1 ≤ 0xBF
          else if b = 0xED then 0x80 ≤ b1 && b1 ≤ 0x9F
          else utf8Cont b1
        if okB1 && utf8Cont b2 then
          (decodeUtf8Aux fuel bs3).map
            (fun cs => Char.ofNat ((b - 0xE0) * 0x1000 + (b1 - 0x80) * 0x40 + (b2 - 0x80)) :: cs)
        else none
      | _ => none
    else if 0xF0 ≤ b && b ≤ 0xF4 then
      match bs with
      | b1 :: b2 :: b3 :: bs4 =>
        let okB1 :=
          if b = 0xF0 then 0x90 ≤ b1 && b1 ≤ 0xBF
          else if b = 0xF4 then 0x80 ≤ b1 && b1 ≤ 0x8F
          else utf8Cont b1
        if okB1 && utf8Cont b2 && utf8Cont b3 then
          (decodeUtf8Aux fuel bs4).map
            (fun cs => Char.ofNat
              ((b - 0xF0) * 0x40000 + (b1 - 0x80) * 0x1000 + (b2 - 0x80) * 0x40 + (b3 - 0x80)) :: cs)
        else none
      | _ => none
    else none

/-- Python `bytes.decode('utf-8')` (strict). -/
def decodeUtf8Bytes (bs : List Nat) : Option (List Char) :=
  decodeUtf8Aux bs.length bs

/-! ### Command constants -/

def CMD_TOGGLE_LOG : Char := 't'

def CMD_SCREENSHOT : Char := 'C'

def CMD_SHOW_MEM : Char := '$'

def CMD_THEME_EDITOR_TOGGLE : Char := 'T'

def CMD_THEME_GET : Char := '@'

/-! ### Events and controller state -/

/-- Items put on `RadioController.data_queue`.  Telemetry (and other
plain text) lines are put as bare strings; everything else is a
`(tag, payload)` tuple. -/
inductive Event where
  | line (s : List Char)
  | screenshot_data (hex : List Char) (duration : ℚ)
  | screenshot_error (msg : List Char)
  | memory_slots_data (slots : List (List Char))
  | memory_slots_error (msg : List Char)
  | theme_data (s : List Char)
  | theme_data_error (msg : List Char)
  | serial_error_disconnect (msg : List Char)
deriving DecidableEq

/-- The mutable fields of `RadioController` relevant to the protocol
decoder, plus the observable output traces: `queue` models
`data_queue` (oldest first) and `sent` the command characters written
to the serial port (oldest first). -/
structure Ctrl where
  ser_open : Bool
  running : Bool
  data_received : Bool
  expecting_screenshot_data : Bool
  screenshot_hex_buffer : List Char
  last_screenshot_hex_byte_time : ℚ
  screenshot_request_time : ℚ
  expecting_memory_slots : Bool
  memory_slots_buffer : List (List Char)
  last_memory_slot_time : ℚ
  log_is_on_before_special_op : Bool
  line_assembly_buffer_bytes : List Nat
  expecting_theme_string : Bool
  theme_string_buffer : List Char
  last_theme_data_time : ℚ
  theme_get_sequence_active : Bool
  queue : List Event
  sent : List Char
deriving DecidableEq

/-- `data_queue.put(e)`. -/
def enqueue (s : Ctrl) (e : Event) : Ctrl := { s with queue := s.queue ++ [e] }

/-- The controller state right after a successful `connect()` reset all
capture fields, before the initial `send_command(CMD_TOGGLE_LOG,
is_user_toggle=True)` call: serial open, reader running, everything
else as in `__init__`. -/
def baseCtrl : Ctrl where
  ser_open := true
  running := true
  data_received := false
  expecting_screenshot_data := false
  screenshot_hex_buffer := []
  last_screenshot_hex_byte_time := 0
  screenshot_request_time := 0
  expecting_memory_slots := false
  memory_slots_buffer := []
  last_memory_slot_time := 0
  log_is_on_before_special_op := false
  line_assembly_buffer_bytes := []
  expecting_theme_string := false
  theme_string_buffer := []
  last_theme_data_time := 0
  theme_get_sequence_active := false
  queue := []
  sent := []

/-! ### Command dispatcher -/

/-- `RadioController._send_raw_command`: writes only when the port is
open; any exception from the write is caught and merely printed (no
event, no re-raise).  `fails` says whether the underlying
`self.ser.write` raises on this call. -/
def sendRawCommandF (fails : Bool) (s : Ctrl) (c : Char) : Ctrl :=
  if s.ser_open then
    if fails then s else { s with sent := s.sent ++ [c] }
  else s

/-- `_send_raw_command` on the failure-free path. -/
def sendRawCommand (s : Ctrl) (c : Char) : Ctrl := sendRawCommandF false s c

/-- The three operation tags passed to `_finalize_special_op` by the
reader loop and `send_command`/`request_theme_data` (the string
`"ThemeEditorToggle"` mentioned in its final guard is never passed, so
that guard is equivalent to the log-flag test alone). -/
inductive OpType where
  | Screenshot
  | Memory
  | ThemeGet
deriving DecidableEq

def opName : OpType → List Char
  | .Screenshot => "Screenshot".toList
  | .Memory => "Memory".toList
  | .ThemeGet => "ThemeGet".toList

/-- The per-operation error event constructor (`err_key`). -/
def opErrEvent : OpType → List Char → Event
  | .Screenshot, m => .screenshot_error m
  | .Memory, m => .memory_slots_error m
  | .ThemeGet, m => .theme_data_error m

def noScreenshotDataMsg : List Char := "No screenshot data received.".toList

def noMemoryDataMsg : List Char := "No memory slot data received.".toList

def noThemeDataMsg : List Char := "No theme string received or timeout.".toList

/-- `RadioController._finalize_special_op(operation_type)` on the
failure-free write path. -/
def finalizeSpecialOp (now : ℚ) (op : OpType) (s : Ctrl) : Ctrl :=
  let s1 :=
    match op with
    | .Screenshot =>
      let a := { s with expecting_screenshot_data := false, last_screenshot_hex_byte_time := 0 }
      let b :=
        if !a.screenshot_hex_buffer.isEmpty then
          enqueue a (.screenshot_data a.screenshot_hex_buffer (now - a.screenshot_request_time))
        else enqueue a (.screenshot_error noScreenshotDataMsg)
      { b with screenshot_hex_buffer := [] }
    | .Memory =>
      let a := { s with expecting_memory_slots := false, last_memory_slot_time := 0 }
      let b :=
        if !a.memory_slots_buffer.isEmpty then
          enqueue a (.memory_slots_data a.memory_slots_buffer)
        else enqueue a (.memory_slots_error noMemoryDataMsg)
      { b with memory_slots_buffer := [] }
    | .ThemeGet =>
      let a := { s with expecting_theme_string := false, last_theme_data_time := 0 }
      let a2 := sendRawCommand a CMD_THEME_EDITOR_TOGGLE
      let a3 := { a2 with theme_get_sequence_active := false }
      let b :=
        if !a3.theme_string_buffer.isEmpty then
          enqueue a3 (.theme_data a3.theme_string_buffer)
        else enqueue a3 (.theme_data_error noThemeDataMsg)
      { b with theme_string_buffer := [] }
  if s1.log_is_on_before_special_op then sendRawCommand s1 CMD_TOGGLE_LOG else s1

def sendErrMsg : List Char := "Send error".toList

/-- `RadioController.send_command(cmd, is_user_toggle)`.  `rawFail`
says whether the raw toggle-log preamble write raises (caught inside
`_send_raw_command`, invisible to `send_command`); `mainFail` whether
the direct `self.ser.write` of the command raises (caught by
`send_command`, which then puts a `serial_error_disconnect` event and
skips the rest of its body). -/
def send_commandF (rawFail mainFail : Bool) (now : ℚ) (s : Ctrl) (cmd : Char)
    (is_user_toggle : Bool) : Ctrl :=
  if s.ser_open then
    let s1 :=
      if (cmd = CMD_SCREENSHOT || cmd = CMD_SHOW_MEM) && s.log_is_on_before_special_op then
        sendRawCommandF rawFail s CMD_TOGGLE_LOG
      else s
    if cmd = CMD_SCREENSHOT then
      let s2 := { s1 with expecting_screenshot_data := true, screenshot_hex_buffer := [],
                          last_screenshot_hex_byte_time := now, screenshot_request_time := now }
      if mainFail then enqueue s2 (.serial_error_disconnect sendErrMsg)
      else { s2 with sent := s2.sent ++ [cmd] }
    else if cmd = CMD_SHOW_MEM then
      let s2 := { s1 with expecting_memory_slots := true, memory_slots_buffer := [],
                          last_memory_slot_time := now }
      if mainFail then enqueue s2 (.serial_error_disconnect sendErrMsg)
      else { s2 with sent := s2.sent ++ [cmd] }
    else
      if mainFail then enqueue s1 (.serial_error_disconnect sendErrMsg)
      else
        let s2 := { s1 with sent := s1.sent ++ [cmd] }
        if cmd = CMD_TOGGLE_LOG && is_user_toggle then
          { s2 with log_is_on_before_special_op := !s2.log_is_on_before_special_op }
        else s2
  else s

/-- `send_command` on the failure-free path. -/
def send_command (now : ℚ) (s : Ctrl) (cmd : Char) (is_user_toggle : Bool) : Ctrl :=
  send_commandF false false now s cmd is_user_toggle

def notConnectedThemeMsg : List Char := "Not connected to radio.".toList

/-- `RadioController.request_theme_data()`.  All three writes go
through `_send_raw_command`, so each failure flag is swallowed there
(print only — nothing reaches the queue). -/
def request_theme_dataF (f1 f2 f3 : Bool) (now : ℚ) (s : Ctrl) : Ctrl :=
  if s.ser_open then
    let s1 := if s.log_is_on_before_special_op then sendRawCommandF f1 s CMD_TOGGLE_LOG else s
    let s2 := sendRawCommandF f2 s1 CMD_THEME_EDITOR_TOGGLE
    let s3 := { s2 with expecting_theme_string := true, theme_string_buffer := [],
                        last_theme_data_time := now, theme_get_sequence_active := true }
    sendRawCommandF f3 s3 CMD_THEME_GET
  else enqueue s (.theme_data_error notConnectedThemeMsg)

/-- `request_theme_data` on the failure-free path. -/
def request_theme_data (now : ℚ) (s : Ctrl) : Ctrl :=
  request_theme_dataF false false false now s

/-! ### Reader loop: processing one complete line -/

/-- The screenshot branch's `is_simple_ignorable` test. -/
def isSimpleIgnorableScreenshot (line : List Char) : Bool :=
  toUpperL (pyStrip line) = "OK".toList ||
  containsSub "ERROR: EXPECTED NEWLINE".toList (toUpperL line) ||
  toUpperL (pyStrip line) = "C".toList

/-- The memory branch's `is_simple_resp` test (note: the substring
check is case-sensitive here, unlike the screenshot branch). -/
def isSimpleRespMemory (line : List Char) : Bool :=
  toUpperL (pyStrip line) = "OK".toList ||
  containsSub "Error: Expected newline".toList line

/-- Dispatch of one decoded, stripped line (`line_str`) — the body of
the reader loop from `if not line_str:` onward (`read_serial`, lines
255-306 of the source). -/
def processDecodedLine (now : ℚ) (s : Ctrl) (line : List Char) : Ctrl :=
  if line.isEmpty then
    if s.expecting_screenshot_data && !s.screenshot_hex_buffer.isEmpty then
      { s with last_screenshot_hex_byte_time := now }
    else if s.expecting_memory_slots && !s.memory_slots_buffer.isEmpty then
      { s with last_memory_slot_time := now }
    else if s.expecting_theme_string then
      { s with last_theme_data_time := now }
    else s
  else if s.expecting_screenshot_data then
    let isHex := isHexStr line
    let s1 := if isHex then { s with screenshot_hex_buffer := s.screenshot_hex_buffer ++ line }
              else s
    let s2 := { s1 with last_screenshot_hex_byte_time := now }
    if isHex then s2
    else if isSimpleIgnorableScreenshot line then s2
    else if dataLogMatch line then enqueue s2 (.line line)
    else s2
  else if s.expecting_memory_slots then
    if memSlotMatch line then
      let s1 := { s with memory_slots_buffer := s.memory_slots_buffer ++ [line],
                         last_memory_slot_time := now }
      if 32 ≤ s1.memory_slots_buffer.length then finalizeSpecialOp now .Memory s1 else s1
    else if !s.memory_slots_buffer.isEmpty then
      if dataLogMatch line || !isSimpleRespMemory line then
        let s1 := finalizeSpecialOp now .Memory s
        if dataLogMatch line then enqueue s1 (.line line) else s1
      else { s with last_memory_slot_time := now }
    else
      if dataLogMatch line then enqueue s (.line line) else s
  else if s.expecting_theme_string then
    match themeMatch line with
    | some grp => finalizeSpecialOp now .ThemeGet { s with theme_string_buffer := grp }
    | none => { s with last_theme_data_time := now }
  else
    if dataLogMatch line then enqueue s (.line line) else s

def corruptionStartMsg (op : OpType) : List Char :=
  "UnicodeDecodeError at start of ".toList ++ opName op ++ " data.".toList

def corruptionMidMsg (op : OpType) : List Char :=
  "Unicode corruption after receiving some data for ".toList ++ opName op ++ ".".toList

/-- Clear the buffer of the given operation (the three assignments that
precede the `_finalize_special_op` call in the decode-error handler). -/
def clearOpBuffer (op : OpType) (s : Ctrl) : Ctrl :=
  match op with
  | .Screenshot => { s with screenshot_hex_buffer := [] }
  | .Memory => { s with memory_slots_buffer := [] }
  | .ThemeGet => { s with theme_string_buffer := [] }

/-- Is the buffer of the given operation non-empty (`current_buffer`
truthiness in the decode-error handler)? -/
def opBufferNonempty (op : OpType) (s : Ctrl) : Bool :=
  match op with
  | .Screenshot => !s.screenshot_hex_buffer.isEmpty
  | .Memory => !s.memory_slots_buffer.isEmpty
  | .ThemeGet => !s.theme_string_buffer.isEmpty

/-- Processing of one complete line's bytes — the body of the `while
b'\n' in ...` loop (`read_serial`, lines 222-306): ASCII decode and
strip, the `UnicodeDecodeError` handler (mid-capture: corruption error
then buffer discard then finalize; idle: UTF-8 fallback, queueing the
result when non-empty), then `processDecodedLine`. -/
def processCompleteLine (now : ℚ) (s : Ctrl) (bytes : List Nat) : Ctrl :=
  match decodeAsciiBytes bytes with
  | some cs => processDecodedLine now s (pyStrip cs)
  | none =>
    let opt : Option OpType :=
      if s.expecting_screenshot_data then some .Screenshot
      else if s.expecting_memory_slots then some .Memory
      else if s.expecting_theme_string then some .ThemeGet
      else none
    match opt with
    | some op =>
      let msg := if opBufferNonempty op s then corruptionMidMsg op else corruptionStartMsg op
      let s1 := enqueue s (opErrEvent op msg)
      let s2 := clearOpBuffer op s1
      finalizeSpecialOp now op s2
    | none =>
      match decodeUtf8Bytes bytes with
      | some cs =>
        let line := pyStrip cs
        if !line.isEmpty then enqueue s (.line line) else s
      | none => s

/-! ### Reader loop: inactivity timeouts and line assembly -/

def SCREENSHOT_DATA_INACTIVITY_TIMEOUT : ℚ := 10

def MEMORY_DATA_INACTIVITY_TIMEOUT : ℚ := 6 / 5

def THEME_DATA_INACTIVITY_TIMEOUT : ℚ := 3

/-- The inactivity-timeout checks performed when `readline()` returned
no bytes and the assembly buffer is empty (`read_serial`, lines
206-219). -/
def timeoutCheck (now : ℚ) (s : Ctrl) : Ctrl :=
  if s.expecting_screenshot_data && !s.screenshot_hex_buffer.isEmpty &&
     decide (0 < s.last_screenshot_hex_byte_time) &&
     decide (SCREENSHOT_DATA_INACTIVITY_TIMEOUT < now - s.last_screenshot_hex_byte_time) then
    finalizeSpecialOp now .Screenshot s
  else if s.expecting_memory_slots && !s.memory_slots_buffer.isEmpty &&
     decide (0 < s.last_memory_slot_time) &&
     decide (MEMORY_DATA_INACTIVITY_TIMEOUT < now - s.last_memory_slot_time) then
    finalizeSpecialOp now .Memory s
  else if s.expecting_theme_string && decide (0 < s.last_theme_data_time) &&
     decide (THEME_DATA_INACTIVITY_TIMEOUT < now - s.last_theme_data_time) then
    finalizeSpecialOp now .ThemeGet s
  else s

/-- Split the assembly buffer at the first `\n` (byte 10):
`complete_line_bytes, rest = buffer.split(b'\n', 1)`. -/
def splitFirstNl : List Nat → Option (List Nat × List Nat)
  | [] => none
  | b :: bs =>
    if b = 10 then some ([], bs)
    else match splitFirstNl bs with
      | none => none
      | some (l, r) => some (b :: l, r)

/-- Drain all complete lines from the assembly buffer (the `while b'\n'
in self.line_assembly_buffer_bytes` loop), with fuel bounding the
number of newlines. -/
def drainAux : Nat → ℚ → Ctrl → Ctrl
  | 0, _, s => s
  | n + 1, now, s =>
    match splitFirstNl s.line_assembly_buffer_bytes with
    | none => s
    | some (line, rest) =>
      drainAux n now (processCompleteLine now { s with line_assembly_buffer_bytes := rest } line)

/-- One iteration of the reader loop given the bytes returned by
`self.ser.readline()` (empty = "no data right now"). -/
def readIteration (now : ℚ) (newBytes : List Nat) (s : Ctrl) : Ctrl :=
  if newBytes.isEmpty && s.line_assembly_buffer_bytes.isEmpty then timeoutCheck now s
  else
    let s1 := { s with line_assembly_buffer_bytes := s.line_assembly_buffer_bytes ++ newBytes }
    drainAux (s1.line_assembly_buffer_bytes.count 10) now s1

/-- Fold `processDecodedLine` over a list of timestamped lines. -/
def processLines (s : Ctrl) (items : List (ℚ × List Char)) : Ctrl :=
  items.foldl (fun st p => processDecodedLine p.1 st p.2) s

/-! ### Normal forms for `finalizeSpecialOp` and the raw write -/

/-! ### Concrete states, lines and predicates used by the claim
theorems, witnesses and counterexamples -/

/-- Image capture open for 99 seconds with an empty hex buffer. -/
def ssTimeoutState : Ctrl :=
  { baseCtrl with expecting_screenshot_data := true, last_screenshot_hex_byte_time := 1 }

/-- Memory capture open for 99 seconds with an empty slot buffer. -/
def memTimeoutState : Ctrl :=
  { baseCtrl with expecting_memory_slots := true, last_memory_slot_time := 1 }

/-- Theme capture open for 99 seconds with an empty theme buffer. -/
def themeTimeoutState : Ctrl :=
  { baseCtrl with expecting_theme_string := true, last_theme_data_time := 1 }

/-- A memory capture opened while log suppression remembered the log as on. -/
def logOnMemState : Ctrl :=
  { baseCtrl with expecting_memory_slots := true, log_is_on_before_special_op := true }

/-- An open image capture with two hex characters already buffered. -/
def ssCapState : Ctrl :=
  { baseCtrl with expecting_screenshot_data := true, screenshot_hex_buffer := "AB".toList,
                  last_screenshot_hex_byte_time := 1, screenshot_request_time := 1 }

/-- A 15-field telemetry line. -/
def teleLine : List Char := "1,2,3,4,5,6,7,8,9,10,11,12,13,14,15".toList

/-- An open theme capture. -/
def themeCapState : Ctrl :=
  { baseCtrl with expecting_theme_string := true, last_theme_data_time := 1,
                  theme_get_sequence_active := true }

/-- A line matching the theme-string pattern. -/
def themeLineEx : List Char := "Color theme Default: x001Fx07E0".toList

/-- A non-empty line matching no pattern. -/
def noiseLineEx : List Char := "Theme editor mode ON".toList

/-- At most one of the three capture-active flags is set. -/
def atMostOneCapture (s : Ctrl) : Bool :=
  !(s.expecting_screenshot_data && s.expecting_memory_slots) &&
  !(s.expecting_screenshot_data && s.expecting_theme_string) &&
  !(s.expecting_memory_slots && s.expecting_theme_string)

/-- An open memory capture holding one slot line. -/
def memCapState : Ctrl :=
  { baseCtrl with expecting_memory_slots := true, last_memory_slot_time := 1,
                  memory_slots_buffer := ["1,FM,100,AM".toList] }

/-- An open theme capture with a buffered color string. -/
def themeBufState : Ctrl :=
  { baseCtrl with expecting_theme_string := true, last_theme_data_time := 1,
                  theme_string_buffer := "xABCD".toList }

/-- One well-formed memory-slot line. -/
def slotLineEx : List Char := "1,FM,100,AM".toList

/-- Thirty-two timestamped copies of the slot line. -/
def slotItems : List (ℚ × List Char) := List.replicate 32 ((2 : ℚ), slotLineEx)

/-- Number of occurrences of a separator character. -/
def countSep (sep : Char) : List Char → Nat
  | [] => 0
  | c :: cs => (if c = sep then 1 else 0) + countSep sep cs

/-- A 16-field comma-separated line with a leading integer field. -/
def tele16Line : List Char := "1,2,3,4,5,6,7,8,9,10,11,12,13,14,15,16".toList

/-! ### Concrete states, lines and predicates used by the claim
theorems, witnesses and counterexamples -/

theorem sendRawCommandF_eq (f : Bool) (s : Ctrl) (c : Char) :
    sendRawCommandF f s c =
      { s with sent := s.sent ++ (if s.ser_open && !f then [c] else []) } := by
  obtain ⟨so, ru, dr, e1, b1, t1, rt, e2, b2, t2, lg, lab, e3, b3, t3, tga, q, sn⟩ := s
  cases so <;> cases f <;> simp [sendRawCommandF]

theorem finalize_screenshot_eq (now : ℚ) (s : Ctrl) :
    finalizeSpecialOp now .Screenshot s =
      { s with
        expecting_screenshot_data := false
        last_screenshot_hex_byte_time := 0
        screenshot_hex_buffer := []
        queue := s.queue ++
          [if s.screenshot_hex_buffer.isEmpty then Event.screenshot_error noScreenshotDataMsg
           else Event.screenshot_data s.screenshot_hex_buffer (now - s.screenshot_request_time)]
        sent := s.sent ++
          (if s.log_is_on_before_special_op && s.ser_open then [CMD_TOGGLE_LOG] else []) } := by
  obtain ⟨so, ru, dr, e1, b1, t1, rt, e2, b2, t2, lg, lab, e3, b3, t3, tga, q, sn⟩ := s
  cases hb : b1.isEmpty <;> cases lg <;> cases so <;>
    simp [finalizeSpecialOp, enqueue, sendRawCommand, sendRawCommandF, hb]

theorem finalize_memory_eq (now : ℚ) (s : Ctrl) :
    finalizeSpecialOp now .Memory s =
      { s with
        expecting_memory_slots := false
        last_memory_slot_time := 0
        memory_slots_buffer := []
        queue := s.queue ++
          [if s.memory_slots_buffer.isEmpty then Event.memory_slots_error noMemoryDataMsg
           else Event.memory_slots_data s.memory_slots_buffer]
        sent := s.sent ++
          (if s.log_is_on_before_special_op && s.ser_open then [CMD_TOGGLE_LOG] else []) } := by
  obtain ⟨so, ru, dr, e1, b1, t1, rt, e2, b2, t2, lg, lab, e3, b3, t3, tga, q, sn⟩ := s
  cases hb : b2.isEmpty <;> cases lg <;> cases so <;>
    simp [finalizeSpecialOp, enqueue, sendRawCommand, sendRawCommandF, hb]

theorem finalize_theme_eq (now : ℚ) (s : Ctrl) :
    finalizeSpecialOp now .ThemeGet s =
      { s with
        expecting_theme_string := false
        last_theme_data_time := 0
        theme_get_sequence_active := false
        theme_string_buffer := []
        queue := s.queue ++
          [if s.theme_string_buffer.isEmpty then Event.theme_data_error noThemeDataMsg
           else Event.theme_data s.theme_string_buffer]
        sent := s.sent ++ (if s.ser_open then [CMD_THEME_EDITOR_TOGGLE] else []) ++
          (if s.log_is_on_before_special_op && s.ser_open then [CMD_TOGGLE_LOG] else []) } := by
  obtain ⟨so, ru, dr, e1, b1, t1, rt, e2, b2, t2, lg, lab, e3, b3, t3, tga, q, sn⟩ := s
  cases hb : b3.isEmpty <;> cases lg <;> cases so <;>
    simp [finalizeSpecialOp, enqueue, sendRawCommand, sendRawCommandF, hb]

/-! ### C2 — finalizing an idle capture state -/

/-- Claim C2 (amended): finalizing an already-finalized (idle) capture
state is not a no-op.  For each operation type it emits the typed "no
data" error event on the queue; Screenshot and Memory send no command,
but ThemeGet additionally sends the theme-editor-toggle command (with
log suppression remembered as off, no toggle-log is sent). -/
theorem finalize_idle_emits_error (now : ℚ) (s : Ctrl)
    (hss : s.expecting_screenshot_data = false) (hsb : s.screenshot_hex_buffer = [])
    (hms : s.expecting_memory_slots = false) (hmb : s.memory_slots_buffer = [])
    (hts : s.expecting_theme_string = false) (htb : s.theme_string_buffer = [])
    (hlog : s.log_is_on_before_special_op = false) (hopen : s.ser_open = true) :
    (finalizeSpecialOp now .Screenshot s).queue
        = s.queue ++ [Event.screenshot_error noScreenshotDataMsg] ∧
    (finalizeSpecialOp now .Screenshot s).sent = s.sent ∧
    (finalizeSpecialOp now .Memory s).queue
        = s.queue ++ [Event.memory_slots_error noMemoryDataMsg] ∧
    (finalizeSpecialOp now .Memory s).sent = s.sent ∧
    (finalizeSpecialOp now .ThemeGet s).queue
        = s.queue ++ [Event.theme_data_error noThemeDataMsg] ∧
    (finalizeSpecialOp now .ThemeGet s).sent = s.sent ++ [CMD_THEME_EDITOR_TOGGLE] := by
  simp [finalize_screenshot_eq, finalize_memory_eq, finalize_theme_eq, hsb, hmb, htb, hlog, hopen]

/-- Witness for C2's amended theorem at the freshly connected idle state. -/
theorem finalize_idle_emits_error_witness :
    (finalizeSpecialOp 0 .Screenshot baseCtrl).queue
        = baseCtrl.queue ++ [Event.screenshot_error noScreenshotDataMsg] ∧
    (finalizeSpecialOp 0 .Screenshot baseCtrl).sent = baseCtrl.sent ∧
    (finalizeSpecialOp 0 .Memory baseCtrl).queue
        = baseCtrl.queue ++ [Event.memory_slots_error noMemoryDataMsg] ∧
    (finalizeSpecialOp 0 .Memory baseCtrl).sent = baseCtrl.sent ∧
    (finalizeSpecialOp 0 .ThemeGet baseCtrl).queue
        = baseCtrl.queue ++ [Event.theme_data_error noThemeDataMsg] ∧
    (finalizeSpecialOp 0 .ThemeGet baseCtrl).sent = baseCtrl.sent ++ [CMD_THEME_EDITOR_TOGGLE] :=
  finalize_idle_emits_error 0 baseCtrl rfl rfl rfl rfl rfl rfl rfl rfl

/-- Counterexample to C2 as stated: finalizing the idle Screenshot
state does emit an event (the typed "no screenshot data" error). -/
theorem finalize_idle_cex :
    (finalizeSpecialOp 0 .Screenshot baseCtrl).queue ≠ baseCtrl.queue := by decide

/-! ### C7 — inactivity timeout with an empty buffer -/

/-- Claim C7 (amended): with an empty buffer, the inactivity timeout
finalizes only the theme capture (emitting the typed "no data" error);
for the image and memory captures the timeout conditions require a
non-empty buffer, so an empty capture stays open and nothing is
emitted, no matter how much time has passed. -/
theorem timeout_empty_buffer (now : ℚ) (s1 s2 s3 : Ctrl)
    (h1e : s1.expecting_screenshot_data = true) (h1b : s1.screenshot_hex_buffer = [])
    (h1m : s1.expecting_memory_slots = false) (h1t : s1.expecting_theme_string = false)
    (h2m : s2.expecting_memory_slots = true) (h2b : s2.memory_slots_buffer = [])
    (h2s : s2.expecting_screenshot_data = false) (h2t : s2.expecting_theme_string = false)
    (h3t : s3.expecting_theme_string = true) (h3b : s3.theme_string_buffer = [])
    (h3s : s3.expecting_screenshot_data = false) (h3m : s3.expecting_memory_slots = false)
    (h3time : 0 < s3.last_theme_data_time)
    (h3el : THEME_DATA_INACTIVITY_TIMEOUT < now - s3.last_theme_data_time) :
    timeoutCheck now s1 = s1 ∧
    timeoutCheck now s2 = s2 ∧
    (timeoutCheck now s3).expecting_theme_string = false ∧
    (timeoutCheck now s3).queue = s3.queue ++ [Event.theme_data_error noThemeDataMsg] := by
  refine ⟨?_, ?_, ?_, ?_⟩ <;>
    simp [timeoutCheck, h1b, h1m, h1t, h2b, h2s, h2t, h3t, h3b, h3s, h3m, h3time, h3el,
          finalize_theme_eq]

/-- Witness for C7's amended theorem: concrete states 99 seconds idle. -/
theorem timeout_empty_buffer_witness :
    timeoutCheck 100 ssTimeoutState = ssTimeoutState ∧
    timeoutCheck 100 memTimeoutState = memTimeoutState ∧
    (timeoutCheck 100 themeTimeoutState).expecting_theme_string = false ∧
    (timeoutCheck 100 themeTimeoutState).queue
      = themeTimeoutState.queue ++ [Event.theme_data_error noThemeDataMsg] :=
  timeout_empty_buffer 100 ssTimeoutState memTimeoutState themeTimeoutState
    rfl rfl rfl rfl rfl rfl rfl rfl rfl rfl rfl rfl
    (by norm_num [themeTimeoutState, baseCtrl])
    (by norm_num [themeTimeoutState, baseCtrl, THEME_DATA_INACTIVITY_TIMEOUT])

/-- Counterexample to C7 as stated: an image capture whose window
elapsed (99 s > 10 s) with an empty buffer does not finalize and emits
nothing — the timeout check leaves the state unchanged. -/
theorem timeout_empty_cex : timeoutCheck 100 ssTimeoutState = ssTimeoutState := by decide

/-! ### C8 — toggle-log restoration on finalization -/

/-- Claim C8 (confirmed): on every capture finalization (any of the
three operation types, any buffer contents — success and failure
alike), with the serial port open, the toggle-log command is among the
newly sent commands if and only if the remembered log-suppression
state says logging was on before the capture began. -/
theorem toggle_log_on_finalize (now : ℚ) (op : OpType) (s : Ctrl)
    (hopen : s.ser_open = true) :
    CMD_TOGGLE_LOG ∈ ((finalizeSpecialOp now op s).sent).drop s.sent.length ↔
      s.log_is_on_before_special_op = true := by
  cases op <;> cases hl : s.log_is_on_before_special_op <;>
    simp [finalize_screenshot_eq, finalize_memory_eq, finalize_theme_eq, hopen, hl,
          List.append_assoc, List.drop_left, CMD_TOGGLE_LOG, CMD_THEME_EDITOR_TOGGLE]

/-- Witness for C8: an open memory capture with log suppression
remembered as on resends toggle-log on finalization. -/
theorem toggle_log_on_finalize_witness :
    CMD_TOGGLE_LOG ∈ ((finalizeSpecialOp 5 .Memory logOnMemState).sent).drop
        logOnMemState.sent.length ↔
      logOnMemState.log_is_on_before_special_op = true :=
  toggle_log_on_finalize 5 .Memory logOnMemState rfl

/-! ### C9 — write-failure reporting in the command dispatcher -/

/-- Claim C9 (amended): a failing direct serial write inside
`send_command` is always reported as a `serial_error_disconnect` event
(and a successful one reports nothing), but every write issued through
`_send_raw_command` — in particular the whole `request_theme_data`
sequence — swallows its failure: nothing is put on the queue no matter
which of its three writes fail. -/
theorem send_command_failure_reporting (now : ℚ) (s : Ctrl) (cmd : Char)
    (u rawFail f1 f2 f3 : Bool) (hopen : s.ser_open = true) :
    (send_commandF rawFail true now s cmd u).queue
        = s.queue ++ [Event.serial_error_disconnect sendErrMsg] ∧
    (send_commandF rawFail false now s cmd u).queue = s.queue ∧
    (request_theme_dataF f1 f2 f3 now s).queue = s.queue := by
  refine ⟨?_, ?_, ?_⟩ <;>
    simp only [send_commandF, request_theme_dataF, sendRawCommandF_eq, enqueue, hopen,
               if_true] <;>
    split_ifs <;> simp_all

/-- Witness for C9's amended theorem at the freshly connected state. -/
theorem send_command_failure_reporting_witness :
    (send_commandF false true 0 baseCtrl CMD_SCREENSHOT false).queue
        = baseCtrl.queue ++ [Event.serial_error_disconnect sendErrMsg] ∧
    (send_commandF false false 0 baseCtrl CMD_SCREENSHOT false).queue = baseCtrl.queue ∧
    (request_theme_dataF false false true 0 baseCtrl).queue = baseCtrl.queue :=
  send_command_failure_reporting 0 baseCtrl CMD_SCREENSHOT false false false false true rfl

/-- Counterexample to C9 as stated: in `request_theme_data` the final
theme-request write fails (only the theme-editor toggle reaches the
wire) yet no event at all — in particular no disconnect-triggering
error — is put on the Event Channel. -/
theorem raw_write_failure_unreported_cex :
    (request_theme_dataF false false true 0 baseCtrl).queue = [] ∧
    (request_theme_dataF false false true 0 baseCtrl).sent = [CMD_THEME_EDITOR_TOGGLE] := by
  decide

/-! ### C1 — telemetry line during an open image capture -/

theorem commaGroups_head (n : Nat) (r : List Char) (h : commaGroups (n + 1) r = true) :
    r.head? = some ',' := by
  cases r with
  | nil => simp [commaGroups] at h
  | cons c r1 =>
    simp only [commaGroups, Bool.and_eq_true, beq_iff_eq] at h
    simp [h.1]

theorem dataLog_comma_mem (l : List Char) (h : dataLogMatch l = true) : ',' ∈ l := by
  simp only [dataLogMatch, Bool.and_eq_true] at h
  obtain ⟨-, h2⟩ := h
  have hh := commaGroups_head 13 _ h2
  have hmem : ',' ∈ ((l.dropWhile isPySpace).dropWhile Char.isDigit).dropWhile isPySpace := by
    cases heq : ((l.dropWhile isPySpace).dropWhile Char.isDigit).dropWhile isPySpace with
    | nil => rw [heq] at hh; exact absurd hh (by simp)
    | cons a as =>
      rw [heq] at hh
      simp only [List.head?_cons, Option.some.injEq] at hh
      simp [hh]
  have hsub : (((l.dropWhile isPySpace).dropWhile Char.isDigit).dropWhile isPySpace).Sublist l :=
    (List.dropWhile_sublist _).trans ((List.dropWhile_sublist _).trans (List.dropWhile_sublist _))
  exact hsub.subset hmem

theorem dataLog_not_hex (l : List Char) (h : dataLogMatch l = true) : isHexStr l = false := by
  have hm := dataLog_comma_mem l h
  cases hx : isHexStr l with
  | false => rfl
  | true =>
    exfalso
    simp only [isHexStr, Bool.and_eq_true] at hx
    obtain ⟨-, hall⟩ := hx
    have hc := List.all_eq_true.mp hall ',' hm
    exact absurd hc (by decide)

/-- Claim C1 (amended): a line matching the telemetry pattern arriving
during an open image capture (and not also matching the acknowledgment
heuristics) is queued as a Telemetry event and refreshes the
inactivity timestamp, but the capture does not end: the expecting flag
and the hex buffer are untouched, and no finalization event is
emitted — the full resulting state differs from the input state only
in the timestamp and the appended Telemetry line. -/
theorem telemetry_during_image_capture (now : ℚ) (s : Ctrl) (line : List Char)
    (hss : s.expecting_screenshot_data = true)
    (hlog : dataLogMatch line = true)
    (hign : isSimpleIgnorableScreenshot line = false) :
    processDecodedLine now s line =
      { s with last_screenshot_hex_byte_time := now,
               queue := s.queue ++ [Event.line line] } := by
  have hne : line.isEmpty = false := by
    cases line with
    | nil => exact absurd hlog (by decide)
    | cons a as => rfl
  have hhex := dataLog_not_hex line hlog
  simp [processDecodedLine, hne, hss, hhex, hign, hlog, enqueue]

/-- Witness for C1's amended theorem at a concrete capture state. -/
theorem telemetry_during_image_capture_witness :
    processDecodedLine 5 ssCapState teleLine =
      { ssCapState with last_screenshot_hex_byte_time := 5,
                        queue := ssCapState.queue ++ [Event.line teleLine] } :=
  telemetry_during_image_capture 5 ssCapState teleLine rfl (by decide) (by decide)

/-- Counterexample to C1 as stated: after the telemetry line the image
capture is still open with its buffer intact, and the only queued
event is the telemetry line itself — no finalization happened. -/
theorem telemetry_during_image_capture_cex :
    (processDecodedLine 5 ssCapState teleLine).expecting_screenshot_data = true ∧
    (processDecodedLine 5 ssCapState teleLine).queue = [Event.line teleLine] ∧
    (processDecodedLine 5 ssCapState teleLine).screenshot_hex_buffer = "AB".toList := by
  decide

/-! ### C10 — theme-pattern line during an open theme capture -/

theorem themeMatch_nonempty (l g : List Char) (h : themeMatch l = some g) :
    g.isEmpty = false := by
  unfold themeMatch at h
  split at h
  · split at h
    · cases h
    · dsimp only at h
      split at h
      · rename_i hcond
        simp only [Bool.and_eq_true] at hcond
        cases h
        simpa using hcond.1
      · cases h
  · cases h

/-- Claim C10 (confirmed): during an open theme capture, a line
matching the theme-string pattern finalizes at once — the extracted
color string is emitted as the success payload without any timeout
wait — while any other non-empty line merely refreshes the inactivity
timestamp, leaving buffers, flags and queue untouched. -/
theorem theme_line_finalizes (now : ℚ) (s : Ctrl) (line1 line2 g : List Char)
    (hts : s.expecting_theme_string = true)
    (hss : s.expecting_screenshot_data = false) (hms : s.expecting_memory_slots = false)
    (hm1 : themeMatch line1 = some g) (hm2 : themeMatch line2 = none)
    (hne2 : line2.isEmpty = false) :
    (processDecodedLine now s line1).expecting_theme_string = false ∧
    (processDecodedLine now s line1).queue = s.queue ++ [Event.theme_data g] ∧
    (processDecodedLine now s line1).theme_string_buffer = [] ∧
    (processDecodedLine now s line1).screenshot_hex_buffer = s.screenshot_hex_buffer ∧
    (processDecodedLine now s line1).memory_slots_buffer = s.memory_slots_buffer ∧
    processDecodedLine now s line2 = { s with last_theme_data_time := now } := by
  have hne1 : line1.isEmpty = false := by
    cases line1 with
    | nil => rw [show themeMatch [] = none from rfl] at hm1; cases hm1
    | cons a as => rfl
  have hg := themeMatch_nonempty line1 g hm1
  refine ⟨?_, ?_, ?_, ?_, ?_, ?_⟩ <;>
    simp [processDecodedLine, hne1, hne2, hts, hss, hms, hm1, hm2, finalize_theme_eq, hg,
          enqueue]

/-- Witness for C10 at a concrete capture state. -/
theorem theme_line_finalizes_witness :
    (processDecodedLine 2 themeCapState themeLineEx).expecting_theme_string = false ∧
    (processDecodedLine 2 themeCapState themeLineEx).queue
        = themeCapState.queue ++ [Event.theme_data "x001Fx07E0".toList] ∧
    (processDecodedLine 2 themeCapState themeLineEx).theme_string_buffer = [] ∧
    (processDecodedLine 2 themeCapState themeLineEx).screenshot_hex_buffer
        = themeCapState.screenshot_hex_buffer ∧
    (processDecodedLine 2 themeCapState themeLineEx).memory_slots_buffer
        = themeCapState.memory_slots_buffer ∧
    processDecodedLine 2 themeCapState noiseLineEx =
      { themeCapState with last_theme_data_time := 2 } :=
  theme_line_finalizes 2 themeCapState themeLineEx noiseLineEx "x001Fx07E0".toList
    rfl rfl rfl (by decide) (by decide) rfl

/-! ### C3 — at most one open capture -/

/-- At most one of the three capture-active flags is set. -/
theorem atMostOne_finalize (now : ℚ) (op : OpType) (s : Ctrl)
    (h : atMostOneCapture s = true) :
    atMostOneCapture (finalizeSpecialOp now op s) = true := by
  cases he1 : s.expecting_screenshot_data <;> cases he2 : s.expecting_memory_slots <;>
    cases he3 : s.expecting_theme_string <;> cases op <;>
    simp_all [finalize_screenshot_eq, finalize_memory_eq, finalize_theme_eq, atMostOneCapture]

theorem pd_mono_ss (now : ℚ) (s : Ctrl) (line : List Char)
    (h : (processDecodedLine now s line).expecting_screenshot_data = true) :
    s.expecting_screenshot_data = true := by
  by_contra hc
  simp only [Bool.not_eq_true] at hc
  unfold processDecodedLine at h
  repeat' split at h
  all_goals simp_all [finalize_screenshot_eq, finalize_memory_eq, finalize_theme_eq, enqueue,
                      apply_ite]

theorem pd_mono_mem (now : ℚ) (s : Ctrl) (line : List Char)
    (h : (processDecodedLine now s line).expecting_memory_slots = true) :
    s.expecting_memory_slots = true := by
  by_contra hc
  simp only [Bool.not_eq_true] at hc
  unfold processDecodedLine at h
  repeat' split at h
  all_goals simp_all [finalize_screenshot_eq, finalize_memory_eq, finalize_theme_eq, enqueue,
                      apply_ite]

theorem pd_mono_theme (now : ℚ) (s : Ctrl) (line : List Char)
    (h : (processDecodedLine now s line).expecting_theme_string = true) :
    s.expecting_theme_string = true := by
  by_contra hc
  simp only [Bool.not_eq_true] at hc
  unfold processDecodedLine at h
  repeat' split at h
  all_goals simp_all [finalize_screenshot_eq, finalize_memory_eq, finalize_theme_eq, enqueue,
                      apply_ite]

theorem tc_mono_ss (now : ℚ) (s : Ctrl)
    (h : (timeoutCheck now s).expecting_screenshot_data = true) :
    s.expecting_screenshot_data = true := by
  by_contra hc
  simp only [Bool.not_eq_true] at hc
  unfold timeoutCheck at h
  repeat' split at h
  all_goals simp_all [finalize_screenshot_eq, finalize_memory_eq, finalize_theme_eq, apply_ite]

theorem tc_mono_mem (now : ℚ) (s : Ctrl)
    (h : (timeoutCheck now s).expecting_memory_slots = true) :
    s.expecting_memory_slots = true := by
  by_contra hc
  simp only [Bool.not_eq_true] at hc
  unfold timeoutCheck at h
  repeat' split at h
  all_goals simp_all [finalize_screenshot_eq, finalize_memory_eq, finalize_theme_eq, apply_ite]

theorem tc_mono_theme (now : ℚ) (s : Ctrl)
    (h : (timeoutCheck now s).expecting_theme_string = true) :
    s.expecting_theme_string = true := by
  by_contra hc
  simp only [Bool.not_eq_true] at hc
  unfold timeoutCheck at h
  repeat' split at h
  all_goals simp_all [finalize_screenshot_eq, finalize_memory_eq, finalize_theme_eq, apply_ite]

theorem pcl_mono_ss (now : ℚ) (s : Ctrl) (bytes : List Nat)
    (h : (processCompleteLine now s bytes).expecting_screenshot_data = true) :
    s.expecting_screenshot_data = true := by
  by_contra hc
  simp only [Bool.not_eq_true] at hc
  unfold processCompleteLine at h
  repeat' split at h
  all_goals
    first
      | exact absurd (pd_mono_ss _ _ _ h) (by simp [hc])
      | simp_all [finalize_screenshot_eq, finalize_memory_eq, finalize_theme_eq, enqueue,
                  clearOpBuffer, apply_ite]

theorem pcl_mono_mem (now : ℚ) (s : Ctrl) (bytes : List Nat)
    (h : (processCompleteLine now s bytes).expecting_memory_slots = true) :
    s.expecting_memory_slots = true := by
  by_contra hc
  simp only [Bool.not_eq_true] at hc
  unfold processCompleteLine at h
  repeat' split at h
  all_goals
    first
      | exact absurd (pd_mono_mem _ _ _ h) (by simp [hc])
      | simp_all [finalize_screenshot_eq, finalize_memory_eq, finalize_theme_eq, enqueue,
                  clearOpBuffer, apply_ite]

theorem pcl_mono_theme (now : ℚ) (s : Ctrl) (bytes : List Nat)
    (h : (processCompleteLine now s bytes).expecting_theme_string = true) :
    s.expecting_theme_string = true := by
  by_contra hc
  simp only [Bool.not_eq_true] at hc
  unfold processCompleteLine at h
  repeat' split at h
  all_goals
    first
      | exact absurd (pd_mono_theme _ _ _ h) (by simp [hc])
      | simp_all [finalize_screenshot_eq, finalize_memory_eq, finalize_theme_eq, enqueue,
                  clearOpBuffer, apply_ite]

theorem atMostOne_of_mono (s t : Ctrl)
    (h1 : t.expecting_screenshot_data = true → s.expecting_screenshot_data = true)
    (h2 : t.expecting_memory_slots = true → s.expecting_memory_slots = true)
    (h3 : t.expecting_theme_string = true → s.expecting_theme_string = true)
    (h : atMostOneCapture s = true) : atMostOneCapture t = true := by
  cases ha : t.expecting_screenshot_data <;> cases hb : t.expecting_memory_slots <;>
    cases hc : t.expecting_theme_string <;> simp_all [atMostOneCapture]

/-- Claim C3 (amended): every reader-loop step (line processing, whole
raw-line processing, timeout check) preserves the at-most-one-open-
capture invariant, but the command dispatcher does not enforce it —
issuing a capture command while a different capture is open sets the
new flag without closing the old capture (see the counterexample). -/
theorem reader_preserves_single_capture (now : ℚ) (s : Ctrl) (line : List Char)
    (bytes : List Nat) (h : atMostOneCapture s = true) :
    atMostOneCapture (processDecodedLine now s line) = true ∧
    atMostOneCapture (processCompleteLine now s bytes) = true ∧
    atMostOneCapture (timeoutCheck now s) = true :=
  ⟨atMostOne_of_mono s _ (pd_mono_ss now s line) (pd_mono_mem now s line)
      (pd_mono_theme now s line) h,
   atMostOne_of_mono s _ (pcl_mono_ss now s bytes) (pcl_mono_mem now s bytes)
      (pcl_mono_theme now s bytes) h,
   atMostOne_of_mono s _ (tc_mono_ss now s) (tc_mono_mem now s) (tc_mono_theme now s) h⟩

/-- Witness for C3's amended theorem at a concrete open capture. -/
theorem reader_preserves_single_capture_witness :
    atMostOneCapture (processDecodedLine 5 ssCapState teleLine) = true ∧
    atMostOneCapture (processCompleteLine 5 ssCapState [255]) = true ∧
    atMostOneCapture (timeoutCheck 5 ssCapState) = true :=
  reader_preserves_single_capture 5 ssCapState teleLine [255] rfl

/-- Counterexample to C3 as stated: the dispatcher opens a memory
capture while the image capture is still open — after
`send_command('C')` then `send_command('$')` both capture flags are
simultaneously true in a state reachable by dispatcher calls alone. -/
theorem two_captures_open_cex :
    (send_command 0 (send_command 0 baseCtrl CMD_SCREENSHOT false) CMD_SHOW_MEM
        false).expecting_screenshot_data = true ∧
    (send_command 0 (send_command 0 baseCtrl CMD_SCREENSHOT false) CMD_SHOW_MEM
        false).expecting_memory_slots = true := by decide

/-! ### C4 — decode corruption -/

/-- Claim C4 (amended): for every open capture, an undecodable line
does not finalize with the partial buffer as a success payload:
instead an explicit corruption error event is emitted, the partial
buffer is discarded, and the forced finalization (now over an empty
buffer) emits the typed "no data" error as a second event; in `Idle`
the line is queued if the UTF-8 fallback decodes it to non-blank text
and dropped (state unchanged) only when the fallback also fails. -/
theorem decode_corruption_discards_buffer (now : ℚ) (s1 s2 s3 s4 : Ctrl)
    (bytes bytes2 bytes3 : List Nat) (cs : List Char)
    (hdec : decodeAsciiBytes bytes = none)
    (h1e : s1.expecting_screenshot_data = true)
    (h1b : s1.screenshot_hex_buffer.isEmpty = false)
    (h2s : s2.expecting_screenshot_data = false) (h2e : s2.expecting_memory_slots = true)
    (h2b : s2.memory_slots_buffer.isEmpty = false)
    (h3s : s3.expecting_screenshot_data = false) (h3m : s3.expecting_memory_slots = false)
    (h3e : s3.expecting_theme_string = true) (h3b : s3.theme_string_buffer.isEmpty = false)
    (h4s : s4.expecting_screenshot_data = false) (h4m : s4.expecting_memory_slots = false)
    (h4t : s4.expecting_theme_string = false)
    (hdec2a : decodeAsciiBytes bytes2 = none) (hdec2u : decodeUtf8Bytes bytes2 = some cs)
    (hcs : (pyStrip cs).isEmpty = false)
    (hdec3a : decodeAsciiBytes bytes3 = none) (hdec3u : decodeUtf8Bytes bytes3 = none) :
    (processCompleteLine now s1 bytes).queue
        = s1.queue ++ [Event.screenshot_error (corruptionMidMsg .Screenshot),
                       Event.screenshot_error noScreenshotDataMsg] ∧
    (processCompleteLine now s1 bytes).expecting_screenshot_data = false ∧
    (processCompleteLine now s1 bytes).screenshot_hex_buffer = [] ∧
    (processCompleteLine now s2 bytes).queue
        = s2.queue ++ [Event.memory_slots_error (corruptionMidMsg .Memory),
                       Event.memory_slots_error noMemoryDataMsg] ∧
    (processCompleteLine now s2 bytes).expecting_memory_slots = false ∧
    (processCompleteLine now s2 bytes).memory_slots_buffer = [] ∧
    (processCompleteLine now s3 bytes).queue
        = s3.queue ++ [Event.theme_data_error (corruptionMidMsg .ThemeGet),
                       Event.theme_data_error noThemeDataMsg] ∧
    (processCompleteLine now s3 bytes).expecting_theme_string = false ∧
    (processCompleteLine now s3 bytes).theme_string_buffer = [] ∧
    processCompleteLine now s4 bytes2 = enqueue s4 (Event.line (pyStrip cs)) ∧
    processCompleteLine now s4 bytes3 = s4 := by
  refine ⟨?_, ?_, ?_, ?_, ?_, ?_, ?_, ?_, ?_, ?_, ?_⟩ <;>
    simp [processCompleteLine, hdec, hdec2a, hdec2u, hcs, hdec3a, hdec3u, h1e, h1b, h2s, h2e,
          h2b, h3s, h3m, h3e, h3b, h4s, h4m, h4t, opBufferNonempty, clearOpBuffer, opErrEvent,
          enqueue, finalize_screenshot_eq, finalize_memory_eq, finalize_theme_eq]

/-- Witness for C4's amended theorem on concrete capture states and
undecodable byte sequences. -/
theorem decode_corruption_discards_buffer_witness :
    (processCompleteLine 7 ssCapState [255]).queue
        = ssCapState.queue ++ [Event.screenshot_error (corruptionMidMsg .Screenshot),
                               Event.screenshot_error noScreenshotDataMsg] ∧
    (processCompleteLine 7 ssCapState [255]).expecting_screenshot_data = false ∧
    (processCompleteLine 7 ssCapState [255]).screenshot_hex_buffer = [] ∧
    (processCompleteLine 7 memCapState [255]).queue
        = memCapState.queue ++ [Event.memory_slots_error (corruptionMidMsg .Memory),
                                Event.memory_slots_error noMemoryDataMsg] ∧
    (processCompleteLine 7 memCapState [255]).expecting_memory_slots = false ∧
    (processCompleteLine 7 memCapState [255]).memory_slots_buffer = [] ∧
    (processCompleteLine 7 themeBufState [255]).queue
        = themeBufState.queue ++ [Event.theme_data_error (corruptionMidMsg .ThemeGet),
                                  Event.theme_data_error noThemeDataMsg] ∧
    (processCompleteLine 7 themeBufState [255]).expecting_theme_string = false ∧
    (processCompleteLine 7 themeBufState [255]).theme_string_buffer = [] ∧
    processCompleteLine 7 baseCtrl [195, 169]
        = enqueue baseCtrl (Event.line (pyStrip [Char.ofNat 233])) ∧
    processCompleteLine 7 baseCtrl [255] = baseCtrl :=
  decode_corruption_discards_buffer 7 ssCapState memCapState themeBufState baseCtrl
    [255] [195, 169] [255] [Char.ofNat 233]
    (by decide) rfl rfl rfl rfl rfl rfl rfl rfl rfl rfl rfl rfl
    (by decide) (by decide) (by decide) (by decide) (by decide)

/-- Counterexample to C4 as stated: with hex characters already
buffered, an undecodable line yields no success event carrying the
partial payload — the queue receives exactly the corruption error and
the "no data" error, and the partial buffer is discarded. -/
theorem decode_corruption_cex :
    (processCompleteLine 7 ssCapState [255]).queue
        = [Event.screenshot_error (corruptionMidMsg .Screenshot),
           Event.screenshot_error noScreenshotDataMsg] ∧
    (processCompleteLine 7 ssCapState [255]).screenshot_hex_buffer = [] := by decide

/-! ### C5 — memory capture completes at 32 slots -/

theorem isEmpty_append_singleton {α : Type} (l : List α) (a : α) :
    (l ++ [a]).isEmpty = false := by cases l <;> rfl

theorem memSlot_nonempty (line : List Char) (h : memSlotMatch line = true) :
    line.isEmpty = false := by
  cases line with
  | nil => exact absurd h (by decide)
  | cons a as => rfl

/-- Processing fewer slot lines than needed to reach 32 keeps the
memory capture open, extends the buffer in arrival order and emits
nothing. -/
theorem mem_run_open (items : List (ℚ × List Char)) : ∀ s : Ctrl,
    s.expecting_screenshot_data = false → s.expecting_memory_slots = true →
    (∀ p ∈ items, memSlotMatch p.2 = true) →
    s.memory_slots_buffer.length + items.length ≤ 31 →
    (processLines s items).expecting_screenshot_data = false ∧
    (processLines s items).expecting_memory_slots = true ∧
    (processLines s items).memory_slots_buffer
        = s.memory_slots_buffer ++ items.map Prod.snd ∧
    (processLines s items).queue = s.queue := by
  induction items with
  | nil => intro s h1 h2 _ _; simp [processLines, h1, h2]
  | cons p rest ih =>
    intro s h1 h2 hall hlen
    have hslot : memSlotMatch p.2 = true := hall p (by simp)
    have hne : p.2.isEmpty = false := memSlot_nonempty p.2 hslot
    have hlt : ¬ 32 ≤ s.memory_slots_buffer.length + 1 := by
      simp only [List.length_cons] at hlen; omega
    have hstep : processDecodedLine p.1 s p.2 =
        { s with memory_slots_buffer := s.memory_slots_buffer ++ [p.2],
                 last_memory_slot_time := p.1 } := by
      simp [processDecodedLine, hne, h1, h2, hslot, hlt]
    have hrec := ih ({ s with memory_slots_buffer := s.memory_slots_buffer ++ [p.2],
                              last_memory_slot_time := p.1 }) h1 h2
      (fun q hq => hall q (by simp [hq]))
      (by simp only [List.length_cons, List.length_append, List.length_nil] at hlen ⊢
          omega)
    have hcons : processLines s (p :: rest)
        = processLines (processDecodedLine p.1 s p.2) rest := by
      simp [processLines]
    rw [hcons, hstep]
    refine ⟨hrec.1, hrec.2.1, ?_, hrec.2.2.2⟩
    rw [hrec.2.2.1]
    simp

theorem pd_buffer_bound (now : ℚ) (t : Ctrl) (line : List Char)
    (h : t.memory_slots_buffer.length ≤ 31) :
    (processDecodedLine now t line).memory_slots_buffer.length ≤ 31 := by
  unfold processDecodedLine
  repeat' split
  all_goals
    try (simp_all [finalize_screenshot_eq, finalize_memory_eq, finalize_theme_eq, enqueue,
                   apply_ite]; done)
  all_goals
    try dsimp only
    split
    · simp [finalize_memory_eq]
    · rename_i hg
      simp only [List.length_append, List.length_cons, List.length_nil] at hg ⊢
      omega

theorem tc_buffer_bound (now : ℚ) (t : Ctrl)
    (h : t.memory_slots_buffer.length ≤ 31) :
    (timeoutCheck now t).memory_slots_buffer.length ≤ 31 := by
  unfold timeoutCheck
  repeat' split
  all_goals
    simp_all [finalize_screenshot_eq, finalize_memory_eq, finalize_theme_eq, apply_ite]

theorem pcl_buffer_bound (now : ℚ) (t : Ctrl) (bytes : List Nat)
    (h : t.memory_slots_buffer.length ≤ 31) :
    (processCompleteLine now t bytes).memory_slots_buffer.length ≤ 31 := by
  unfold processCompleteLine
  repeat' split
  all_goals
    first
      | exact pd_buffer_bound _ _ _ h
      | simp_all [finalize_screenshot_eq, finalize_memory_eq, finalize_theme_eq, enqueue,
                  clearOpBuffer, apply_ite]

theorem send_buffer_bound (f1 f2 : Bool) (now : ℚ) (t : Ctrl) (cmd : Char) (u : Bool)
    (h : t.memory_slots_buffer.length ≤ 31) :
    (send_commandF f1 f2 now t cmd u).memory_slots_buffer.length ≤ 31 := by
  unfold send_commandF
  repeat' split
  all_goals simp_all [sendRawCommandF_eq, enqueue, apply_ite]

theorem sendRawCommandF_buffer (f : Bool) (s : Ctrl) (c : Char) :
    (sendRawCommandF f s c).memory_slots_buffer = s.memory_slots_buffer := by
  unfold sendRawCommandF
  split_ifs <;> rfl

theorem theme_req_buffer_bound (f1 f2 f3 : Bool) (now : ℚ) (t : Ctrl)
    (h : t.memory_slots_buffer.length ≤ 31) :
    (request_theme_dataF f1 f2 f3 now t).memory_slots_buffer.length ≤ 31 := by
  unfold request_theme_dataF
  split <;> simp [sendRawCommandF_buffer, apply_ite, enqueue, h]

set_option maxRecDepth 8000 in

/-- Claim C5 (confirmed): from an open, empty memory capture, feeding
32 slot-pattern lines (with arbitrary timestamps, i.e. regardless of
arrival spacing) leaves the capture open and silent through the 31st
line and finalizes exactly on the 32nd, emitting one success event
holding the 32 lines in arrival order; moreover every controller step
(line processing, raw-line processing, timeout check, any dispatcher
call) preserves the invariant that the memory buffer holds at most 31
entries between steps — in particular it never exceeds 32. -/
theorem memory_capture_finalizes_at_32 (s : Ctrl) (items : List (ℚ × List Char))
    (t : Ctrl) (now2 : ℚ) (line2 : List Char) (bytes2 : List Nat) (cmd2 : Char)
    (u2 f1 f2 f3 f4 f5 : Bool)
    (hss : s.expecting_screenshot_data = false) (hms : s.expecting_memory_slots = true)
    (hbuf : s.memory_slots_buffer = [])
    (hlen : items.length = 32) (hall : ∀ p ∈ items, memSlotMatch p.2 = true)
    (htb : t.memory_slots_buffer.length ≤ 31) :
    (processLines s (items.take 31)).expecting_memory_slots = true ∧
    (processLines s (items.take 31)).queue = s.queue ∧
    (processLines s (items.take 31)).memory_slots_buffer.length = 31 ∧
    (processLines s items).expecting_memory_slots = false ∧
    (processLines s items).queue
        = s.queue ++ [Event.memory_slots_data (items.map Prod.snd)] ∧
    (processLines s items).memory_slots_buffer = [] ∧
    (processDecodedLine now2 t line2).memory_slots_buffer.length ≤ 31 ∧
    (processCompleteLine now2 t bytes2).memory_slots_buffer.length ≤ 31 ∧
    (timeoutCheck now2 t).memory_slots_buffer.length ≤ 31 ∧
    (send_commandF f1 f2 now2 t cmd2 u2).memory_slots_buffer.length ≤ 31 ∧
    (request_theme_dataF f3 f4 f5 now2 t).memory_slots_buffer.length ≤ 31 ∧
    baseCtrl.memory_slots_buffer.length ≤ 31 := by
  have htake31 : (items.take 31).length = 31 := by
    rw [List.length_take, hlen]; decide
  have hopen := mem_run_open (items.take 31) s hss hms
    (fun q hq => hall q (List.mem_of_mem_take hq))
    (by rw [hbuf, htake31]; simp)
  obtain ⟨hA1, hA2, hA3, hA4⟩ := hopen
  have hdrop : (items.drop 31).length = 1 := by rw [List.length_drop, hlen]
  obtain ⟨p, hp⟩ : ∃ p, items.drop 31 = [p] := by
    cases hd : items.drop 31 with
    | nil => rw [hd] at hdrop; simp at hdrop
    | cons q qs =>
      rw [hd] at hdrop
      simp only [List.length_cons, Nat.add_left_eq_self, List.length_eq_zero] at hdrop
      exact ⟨q, by rw [hdrop]⟩
  have hpmem : p ∈ items := by
    have : p ∈ items.drop 31 := by rw [hp]; simp
    exact List.mem_of_mem_drop this
  have hpslot : memSlotMatch p.2 = true := hall p hpmem
  have hpne : p.2.isEmpty = false := memSlot_nonempty p.2 hpslot
  have hsplit : processLines s items = processDecodedLine p.1 (processLines s (items.take 31)) p.2 := by
    conv_lhs => rw [← List.take_append_drop 31 items, hp]
    simp [processLines, List.foldl_append]
  have hbufT : (processLines s (items.take 31)).memory_slots_buffer
      = (items.take 31).map Prod.snd := by rw [hA3, hbuf]; rfl
  have hlenT : (processLines s (items.take 31)).memory_slots_buffer.length = 31 := by
    rw [hbufT, List.length_map, htake31]
  have hmapitems : items.map Prod.snd = (items.take 31).map Prod.snd ++ [p.2] := by
    conv_lhs => rw [← List.take_append_drop 31 items, hp]
    simp
  have hge : 32 ≤ (processLines s (items.take 31)).memory_slots_buffer.length + 1 := by
    rw [hlenT]
  have hstep : processLines s items
      = finalizeSpecialOp p.1 .Memory
          { (processLines s (items.take 31)) with
              memory_slots_buffer
                := (processLines s (items.take 31)).memory_slots_buffer ++ [p.2],
              last_memory_slot_time := p.1 } := by
    rw [hsplit]
    simp [processDecodedLine, hpne, hA1, hA2, hpslot, hge]
  refine ⟨hA2, hA4, hlenT, ?_, ?_, ?_,
    pd_buffer_bound now2 t line2 htb, pcl_buffer_bound now2 t bytes2 htb,
    tc_buffer_bound now2 t htb, send_buffer_bound f1 f2 now2 t cmd2 u2 htb,
    theme_req_buffer_bound f3 f4 f5 now2 t htb, by simp [baseCtrl]⟩
  · rw [hstep, finalize_memory_eq]
  · rw [hstep, finalize_memory_eq]
    dsimp only
    rw [hbufT, hA4, hmapitems]
    simp [isEmpty_append_singleton]
  · rw [hstep, finalize_memory_eq]

/-- Witness for C5 at a concrete open memory capture. -/
theorem memory_capture_finalizes_at_32_witness :
    (processLines memTimeoutState (slotItems.take 31)).expecting_memory_slots = true ∧
    (processLines memTimeoutState (slotItems.take 31)).queue = memTimeoutState.queue ∧
    (processLines memTimeoutState (slotItems.take 31)).memory_slots_buffer.length = 31 ∧
    (processLines memTimeoutState slotItems).expecting_memory_slots = false ∧
    (processLines memTimeoutState slotItems).queue
        = memTimeoutState.queue ++ [Event.memory_slots_data (slotItems.map Prod.snd)] ∧
    (processLines memTimeoutState slotItems).memory_slots_buffer = [] ∧
    (processDecodedLine 9 baseCtrl slotLineEx).memory_slots_buffer.length ≤ 31 ∧
    (processCompleteLine 9 baseCtrl [255]).memory_slots_buffer.length ≤ 31 ∧
    (timeoutCheck 9 baseCtrl).memory_slots_buffer.length ≤ 31 ∧
    (send_commandF false false 9 baseCtrl CMD_SHOW_MEM false).memory_slots_buffer.length ≤ 31 ∧
    (request_theme_dataF false false false 9 baseCtrl).memory_slots_buffer.length ≤ 31 ∧
    baseCtrl.memory_slots_buffer.length ≤ 31 :=
  memory_capture_finalizes_at_32 memTimeoutState slotItems baseCtrl 9 slotLineEx [255]
    CMD_SHOW_MEM false false false false false false
    rfl rfl rfl (by decide) (by decide) (by decide)

/-! ### C6 — telemetry-line acceptance -/

/-- Number of occurrences of a separator character. -/
theorem splitOnChar_ne_nil (sep : Char) (l : List Char) : splitOnChar sep l ≠ [] := by
  cases l with
  | nil => simp [splitOnChar]
  | cons c cs =>
    unfold splitOnChar
    split
    · simp
    · split <;> simp

theorem splitOnChar_cons_decomp (sep : Char) (cs : List Char) :
    ∃ f rest, splitOnChar sep cs = f :: rest := by
  cases hx : splitOnChar sep cs with
  | nil => exact absurd hx (splitOnChar_ne_nil sep cs)
  | cons f rest => exact ⟨f, rest, rfl⟩

theorem splitOnChar_length (sep : Char) (l : List Char) :
    (splitOnChar sep l).length = countSep sep l + 1 := by
  induction l with
  | nil => rfl
  | cons c cs ih =>
    obtain ⟨f, rest, h⟩ := splitOnChar_cons_decomp sep cs
    rw [h] at ih
    unfold splitOnChar
    by_cases hc : c = sep <;>
      simp only [h, hc, if_pos, if_neg, List.length_cons, countSep, ite_true, ite_false,
                 not_false_eq_true] <;>
      simp only [List.length_cons] at ih <;> omega

theorem splitOnChar_headD (sep : Char) (l : List Char) :
    (splitOnChar sep l).headD [] = l.takeWhile (fun x => x != sep) := by
  induction l with
  | nil => rfl
  | cons c cs ih =>
    obtain ⟨f, rest, h⟩ := splitOnChar_cons_decomp sep cs
    rw [h] at ih
    unfold splitOnChar
    by_cases hc : c = sep
    · subst hc; simp [h, List.takeWhile_cons]
    · simp only [List.headD_cons] at ih
      simp [h, hc, List.takeWhile_cons, ih]

theorem countSep_dropWhile_ne (l : List Char) :
    countSep ',' (l.dropWhile (fun x => x != ',')) = countSep ',' l := by
  induction l with
  | nil => rfl
  | cons c cs ih =>
    by_cases hc : c = ','
    · subst hc; simp [List.dropWhile_cons]
    · simp [List.dropWhile_cons, hc, countSep, ih]

theorem dropWhile_ne_head (l : List Char) :
    l.dropWhile (fun x => x != ',') = [] ∨
      (l.dropWhile (fun x => x != ',')).head? = some ',' := by
  induction l with
  | nil => left; rfl
  | cons c cs ih =>
    by_cases hc : c = ','
    · subst hc; right; simp [List.dropWhile_cons]
    · simpa [List.dropWhile_cons, hc] using ih

theorem countSep_pos_of_dropWhile_ne_nil (l : List Char)
    (h : l.dropWhile (fun x => x != ',') ≠ []) : 1 ≤ countSep ',' l := by
  rcases dropWhile_ne_head l with h' | h'
  · exact absurd h' h
  · rw [← countSep_dropWhile_ne l]
    cases heq : l.dropWhile (fun x => x != ',') with
    | nil => exact absurd heq h
    | cons a as =>
      rw [heq] at h'
      simp only [List.head?_cons, Option.some.injEq] at h'
      subst h'
      simp [countSep]

theorem dropWhile_ne_eq_nil_iff (r1 : List Char) :
    r1.dropWhile (fun x => x != ',') = [] ↔ countSep ',' r1 = 0 := by
  constructor
  · intro h
    have hd := countSep_dropWhile_ne r1
    rw [h] at hd
    simpa [countSep] using hd.symm
  · intro h
    by_contra hne
    have := countSep_pos_of_dropWhile_ne_nil r1 hne
    omega

theorem countSep_comma_cons (r1 : List Char) :
    countSep ',' (',' :: r1) = 1 + countSep ',' r1 := by simp [countSep]

theorem commaGroups_succ_iff (n : Nat) : ∀ r : List Char,
    (commaGroups (n + 1) r = true ↔ countSep ',' r = n + 1 ∧ r.head? = some ',') := by
  induction n with
  | zero =>
    intro r
    cases r with
    | nil => simp [commaGroups, countSep]
    | cons c r1 =>
      by_cases hc : c = ','
      · subst hc
        simp only [commaGroups, beq_self_eq_true, Bool.true_and, List.isEmpty_eq_true,
                   List.head?_cons, Option.some.injEq, and_true]
        rw [dropWhile_ne_eq_nil_iff]
        have he := countSep_comma_cons r1
        constructor
        · intro h; omega
        · intro h; omega
      · simp [commaGroups, hc, countSep]
  | succ n ih =>
    intro r
    cases r with
    | nil => simp [commaGroups, countSep]
    | cons c r1 =>
      by_cases hc : c = ','
      · subst hc
        have hd := countSep_dropWhile_ne r1
        have he := countSep_comma_cons r1
        simp only [commaGroups, beq_self_eq_true, Bool.true_and, List.head?_cons,
                   Option.some.injEq, and_true]
        rw [ih (r1.dropWhile (fun x => x != ',')), hd]
        constructor
        · rintro ⟨h1, -⟩
          omega
        · intro h1
          refine ⟨by omega, ?_⟩
          rcases dropWhile_ne_head r1 with h' | h'
          · exfalso
            rw [h'] at hd
            simp only [countSep] at hd
            omega
          · exact h'
      · simp [commaGroups, hc, countSep]

theorem countSep_append (sep : Char) (a b : List Char) :
    countSep sep (a ++ b) = countSep sep a + countSep sep b := by
  induction a with
  | nil => simp [countSep]
  | cons c cs ih =>
    rw [List.cons_append]
    simp only [countSep]
    rw [ih]
    omega

theorem countSep_eq_zero (a : List Char) (h : ∀ x ∈ a, x ≠ ',') :
    countSep ',' a = 0 := by
  induction a with
  | nil => rfl
  | cons c cs ih =>
    have := ih (fun x hx => h x (by simp [hx]))
    simp only [countSep, if_neg (h c (by simp))]
    omega

theorem mem_takeWhile_pred (p : Char → Bool) (l : List Char) (x : Char)
    (h : x ∈ l.takeWhile p) : p x = true := by
  induction l with
  | nil => simp [List.takeWhile] at h
  | cons c cs ih =>
    by_cases hc : p c
    · rw [List.takeWhile_cons, if_pos hc] at h
      rcases List.mem_cons.mp h with rfl | h'
      · exact hc
      · exact ih h'
    · rw [List.takeWhile_cons, if_neg hc] at h
      simp at h

theorem dropWhile_append_head (p : Char → Bool) (a b : List Char)
    (hb : ∀ x, b.head? = some x → p x = false) :
    (a ++ b).dropWhile p = a.dropWhile p ++ b := by
  induction a with
  | nil =>
    cases b with
    | nil => rfl
    | cons x xs => simp [List.dropWhile_cons, hb x rfl]
  | cons c cs ih =>
    by_cases hc : p c
    · simp [List.dropWhile_cons, hc, ih]
    · simp [List.dropWhile_cons, hc]

theorem takeWhile_append_head (p : Char → Bool) (a b : List Char)
    (hb : ∀ x, b.head? = some x → p x = false) :
    (a ++ b).takeWhile p = a.takeWhile p := by
  induction a with
  | nil =>
    cases b with
    | nil => rfl
    | cons x xs => simp [List.takeWhile_cons, hb x rfl]
  | cons c cs ih =>
    by_cases hc : p c <;> simp [List.takeWhile_cons, hc, ih]

/-- Claim C6 (amended): a line is accepted by the telemetry pattern if
and only if it splits into exactly 15 comma-separated fields whose
leading field is a whitespace-padded digit run — a line with more than
15 fields (or fewer) is rejected whole, never partially parsed. -/
theorem data_log_iff_fields (l : List Char) :
    dataLogMatch l = true ↔
      ((splitOnChar ',' l).length = 15 ∧
        fieldWsDigits ((splitOnChar ',' l).headD []) = true) := by
  have hFR : l.takeWhile (fun x => x != ',') ++ l.dropWhile (fun x => x != ',') = l :=
    List.takeWhile_append_dropWhile (fun x => x != ',') l
  set F := l.takeWhile (fun x => x != ',') with hF
  set R := l.dropWhile (fun x => x != ',') with hR
  have hRhead : R = [] ∨ R.head? = some ',' := dropWhile_ne_head l
  have hbWs : ∀ x, R.head? = some x → isPySpace x = false := by
    intro x hx
    rcases hRhead with h | h
    · rw [h] at hx; cases hx
    · rw [h] at hx
      injection hx with hx
      subst hx
      decide
  have hbDig : ∀ x, R.head? = some x → Char.isDigit x = false := by
    intro x hx
    rcases hRhead with h | h
    · rw [h] at hx; cases hx
    · rw [h] at hx
      injection hx with hx
      subst hx
      decide
  have e1 : l.dropWhile isPySpace = F.dropWhile isPySpace ++ R := by
    conv_lhs => rw [← hFR]
    exact dropWhile_append_head isPySpace F R hbWs
  have e2 : (l.dropWhile isPySpace).takeWhile Char.isDigit
      = (F.dropWhile isPySpace).takeWhile Char.isDigit := by
    rw [e1]; exact takeWhile_append_head Char.isDigit _ R hbDig
  have e4 : ((l.dropWhile isPySpace).dropWhile Char.isDigit).dropWhile isPySpace
      = (((F.dropWhile isPySpace).dropWhile Char.isDigit).dropWhile isPySpace) ++ R := by
    rw [e1, dropWhile_append_head Char.isDigit _ R hbDig,
        dropWhile_append_head isPySpace _ R hbWs]
  have hFnc : ∀ x ∈ F, x ≠ ',' := by
    intro x hx
    have := mem_takeWhile_pred (fun x => x != ',') l x hx
    simpa using this
  have hF2sub : ∀ x ∈ ((F.dropWhile isPySpace).dropWhile Char.isDigit).dropWhile isPySpace,
      x ∈ F := by
    intro x hx
    exact (List.dropWhile_sublist _).subset
      ((List.dropWhile_sublist _).subset ((List.dropWhile_sublist _).subset hx))
  have hcF2 : countSep ','
      (((F.dropWhile isPySpace).dropWhile Char.isDigit).dropWhile isPySpace) = 0 :=
    countSep_eq_zero _ (fun x hx => hFnc x (hF2sub x hx))
  have hcF : countSep ',' F = 0 := countSep_eq_zero F hFnc
  have hcl : countSep ',' l = countSep ',' R := by
    conv_lhs => rw [← hFR]
    rw [countSep_append, hcF]
    omega
  rw [splitOnChar_headD ',' l, splitOnChar_length ',' l, hcl, ← hF]
  show (!((l.dropWhile isPySpace).takeWhile Char.isDigit).isEmpty &&
      commaGroups 14 (((l.dropWhile isPySpace).dropWhile Char.isDigit).dropWhile isPySpace))
      = true ↔ _
  rw [e2, e4]
  simp only [Bool.and_eq_true]
  rw [show (14 : Nat) = 13 + 1 from rfl, commaGroups_succ_iff 13, countSep_append, hcF2]
  unfold fieldWsDigits
  simp only [Bool.and_eq_true, List.isEmpty_eq_true]
  constructor
  · rintro ⟨hds, hcnt, hhd⟩
    have hF2nil : ((F.dropWhile isPySpace).dropWhile Char.isDigit).dropWhile isPySpace
        = [] := by
      cases hcase : ((F.dropWhile isPySpace).dropWhile Char.isDigit).dropWhile isPySpace with
      | nil => rfl
      | cons c f2 =>
        exfalso
        rw [hcase] at hhd
        simp only [List.cons_append, List.head?_cons, Option.some.injEq] at hhd
        exact hFnc c (hF2sub c (by rw [hcase]; simp)) hhd
    refine ⟨by omega, hds, hF2nil⟩
  · rintro ⟨hcnt, hds, hF2nil⟩
    refine ⟨hds, by omega, ?_⟩
    rw [hF2nil, List.nil_append]
    have hRne : R ≠ [] := by
      intro hnil
      rw [hnil] at hcnt
      simp only [countSep] at hcnt
      omega
    rcases hRhead with h | h
    · exact absurd h hRne
    · exact h

/-- Counterexample to C6 as stated: a 16-field line with a leading
integer field splits into at least 15 comma-separated fields yet is
rejected by the telemetry pattern, which demands exactly 15. -/
theorem sixteen_fields_rejected_cex :
    15 ≤ (splitOnChar ',' tele16Line).length ∧
    fieldWsDigits ((splitOnChar ',' tele16Line).headD []) = true ∧
    dataLogMatch tele16Line = false := by decide
